import Mathlib

/-!
# Multi-step form dispatcher (`main.go`)

A shallow embedding of the HTTP handlers of `main.go` and of the part of
Go's `net/http` they call.  A handler is a function from the response writer
it is handed and the request to the response writer it leaves behind; the
`Application` value is read-only in every handler of the source (no handler
assigns to `app.tpl`), so it is passed along unchanged.
-/

namespace MultiStep

/-! ## `net/url` and `net/http` data -/

/-- Decoded form pairs in wire order; the values of a key are the second
components of the pairs carrying it, in order (Go: `url.Values`). -/
abbrev Values := List (String × String)

/-- The value list `v[key]` of a `url.Values`. -/
def Values.get (v : Values) (key : String) : List String :=
  (v.filter (fun p => p.1 == key)).map (fun p => p.2)

/-- A header map (Go: `http.Header`, a `map[string][]string`); keys are in
canonical MIME form, as the server stores them. -/
abbrev Header := List (String × List String)

/-- `Header.Get`: the first value stored under `key`, or `""`.  The keys the
program looks up (`Hx-Request`, `Hx-Boosted`) are already canonical. -/
def Header.Get (h : Header) (key : String) : String :=
  match h.lookup key with
  | some (v :: _) => v
  | _ => ""

/-- `Header.Del`: drop the entry of `key`. -/
def Header.Del (h : Header) (key : String) : Header :=
  h.filter (fun p => p.1 != key)

/-- `Header.Set`: replace the entry of `key` by the single value `value`. -/
def Header.Set (h : Header) (key value : String) : Header :=
  Header.Del h key ++ [(key, [value])]

/-- The data handed to a template (Go: `map[string]any`); `none` is `nil`. -/
abbrev PageData := Option (List (String × String))

/-- The parsed template set (Go: `*template.Template`): looking a name up
gives the text that template produces for given data, or nothing when no
template has that name.  The template files are not part of the program
text, so the set is a parameter. -/
abbrev Template := String → Option (PageData → String)

/-- The request as a handler sees it. -/
structure Request where
  /-- The request method. -/
  Method : String
  /-- The path of the request URL as it was sent (`URL.EscapedPath()`), which
  is what the mux matches; no handler of the program reads it. -/
  Path : String
  /-- The decoded pairs of `URL.RawQuery`. -/
  Query : Values
  /-- The request headers. -/
  Header : Header
  /-- The decoded pairs of a form-encoded body (empty for any other body). -/
  PostBody : Values
  /-- The field `Form`; `none` until the form has been parsed. -/
  Form : Option Values
  /-- The wildcard bindings of the matched route pattern. -/
  pathValues : List (String × String)
deriving DecidableEq, Repr

/-- `Request.PathValue`: the binding of a wildcard, or `""`. -/
def Request.PathValue (r : Request) (name : String) : String :=
  match r.pathValues.lookup name with
  | some v => v
  | none => ""

/-- `Request.ParseForm`: fills `Form` once, body pairs (for POST, PUT and
PATCH) before query pairs. -/
def Request.ParseForm (r : Request) : Request :=
  match r.Form with
  | some _ => r
  | none =>
    let post : Values :=
      if r.Method = "POST" ∨ r.Method = "PUT" ∨ r.Method = "PATCH" then r.PostBody else []
    { r with Form := some (post ++ r.Query) }

/-- `Request.FormValue`: the first value of `key` in the parsed form, or
`""`; a request whose form was not parsed yet is parsed first. -/
def Request.FormValue (r : Request) (key : String) : String :=
  match (r.ParseForm).Form with
  | some f =>
    match Values.get f key with
    | v :: _ => v
    | [] => ""
  | none => ""

/-- The response under construction (Go: `http.ResponseWriter`), with a
record of the templates the handler asked to execute. -/
structure ResponseWriter where
  /-- The response header map. -/
  header : Header
  /-- Whether the status line has been written. -/
  wroteHeader : Bool
  /-- The status code written (0 before the status line is written). -/
  status : Nat
  /-- The body bytes written so far. -/
  body : String
  /-- The templates executed so far, with the data passed to them. -/
  views : List (String × PageData)
deriving DecidableEq, Repr

/-- The writer the server hands to a handler. -/
def ResponseWriter.new : ResponseWriter :=
  { header := [], wroteHeader := false, status := 0, body := "", views := [] }

/-- The call `w.Header().Set(key, value)`. -/
def ResponseWriter.SetHeader (w : ResponseWriter) (key value : String) : ResponseWriter :=
  { w with header := Header.Set w.header key value }

/-- The call `w.Header().Del(key)`. -/
def ResponseWriter.DelHeader (w : ResponseWriter) (key : String) : ResponseWriter :=
  { w with header := Header.Del w.header key }

/-- `WriteHeader`: the first call fixes the status, later calls are ignored. -/
def ResponseWriter.WriteHeader (w : ResponseWriter) (statusCode : Nat) : ResponseWriter :=
  if w.wroteHeader then w else { w with wroteHeader := true, status := statusCode }

/-- `Write`: writes status 200 first when no status was written yet. -/
def ResponseWriter.Write (w : ResponseWriter) (data : String) : ResponseWriter :=
  let w1 := if w.wroteHeader then w else w.WriteHeader 200
  { w1 with body := w1.body ++ data }

/-- What the server does when the handler returns: a response whose status
line was never written goes out with status 200. -/
def ResponseWriter.finish (w : ResponseWriter) : ResponseWriter :=
  if w.wroteHeader then w else w.WriteHeader 200

def StatusOK : Nat := 200
def StatusSeeOther : Nat := 303
def StatusBadRequest : Nat := 400

/-- `http.StatusText`, for the codes the program uses. -/
def StatusText (code : Nat) : String :=
  if code = 200 then "OK"
  else if code = 303 then "See Other"
  else if code = 400 then "Bad Request"
  else ""

/-- `http.Error`: a plain-text reply, the message followed by a newline. -/
def Error (w : ResponseWriter) (error : String) (code : Nat) : ResponseWriter :=
  let w1 := w.DelHeader "Content-Length"
  let w2 := w1.SetHeader "Content-Type" "text/plain; charset=utf-8"
  let w3 := w2.SetHeader "X-Content-Type-Options" "nosniff"
  let w4 := w3.WriteHeader code
  w4.Write (error ++ "\n")

/-- `http.Redirect` for a target that is an absolute, clean, ASCII path
without query (every target of the program is one), which the function
leaves as it is: `Location` is set, and only a GET or HEAD request gets a
content type, only a GET request a short HTML body. -/
def Redirect (w : ResponseWriter) (r : Request) (url : String) (code : Nat) : ResponseWriter :=
  let hadCT := (w.header.lookup "Content-Type").isSome
  let w1 := w.SetHeader "Location" url
  let w2 :=
    if !hadCT && (r.Method == "GET" || r.Method == "HEAD") then
      w1.SetHeader "Content-Type" "text/html; charset=utf-8"
    else w1
  let w3 := w2.WriteHeader code
  if !hadCT && r.Method == "GET" then
    w3.Write ("<a href=\"" ++ url ++ "\">" ++ StatusText code ++ "</a>.\n\n")
  else w3

/-- `Template.ExecuteTemplate`: writes the output of the named template; an
unknown name is an error and writes nothing. -/
def ExecuteTemplate (tpl : Template) (w : ResponseWriter) (name : String) (data : PageData) :
    ResponseWriter :=
  let w1 := { w with views := w.views ++ [(name, data)] }
  match tpl name with
  | some t => w1.Write (t data)
  | none => w1

/-! ## The program -/

structure Application where
  tpl : Template

def Application.render (app : Application) (w : ResponseWriter) (pageName : String)
    (pageData : PageData) (statusCode : Nat) : ResponseWriter :=
  let w1 := w.SetHeader "Content-Type" "text/html; charset=utf-8"
  let w2 := w1.WriteHeader statusCode
  -- the error returned by ExecuteTemplate is dropped
  ExecuteTemplate app.tpl w2 pageName pageData

def Application.home (app : Application) (w : ResponseWriter) (_r : Request) : ResponseWriter :=
  app.render w "home" none StatusOK

def Application.form (app : Application) (w : ResponseWriter) (r : Request) : ResponseWriter :=
  let sect := r.PathValue "section"
  app.render w ("page-form-" ++ sect) none StatusOK

def Application.formSection (app : Application) (w : ResponseWriter) (r0 : Request) :
    ResponseWriter :=
  let sect := r0.PathValue "section"
  let r := r0.ParseForm
  let hxRequest := r.Header.Get "Hx-Request" == "true"
  let hxBoosted := r.Header.Get "Hx-Boosted" == "true"
  if sect = "one" then
    let next := r.FormValue "next" == "next"
    let cancel := r.FormValue "cancel" == "cancel"
    if next then
      if hxRequest && hxBoosted then
        app.render w "form-two" none StatusOK
      else
        Redirect w r "/form/two" StatusSeeOther
    else if cancel then
      if hxRequest && hxBoosted then
        w.SetHeader "Hx-Redirect" "/"
      else
        Redirect w r "/" StatusSeeOther
    else
      Error w (StatusText StatusBadRequest) StatusBadRequest
  else if sect = "two" then
    let next := r.FormValue "next" == "next"
    let prev := r.FormValue "prev" == "prev"
    if next then
      if hxRequest && hxBoosted then
        app.render w "form-three" none StatusOK
      else
        Redirect w r "/form/three" StatusSeeOther
    else if prev then
      if hxRequest && hxBoosted then
        app.render w "form-one" none StatusOK
      else
        Redirect w r "/form/one" StatusSeeOther
    else
      Error w (StatusText StatusBadRequest) StatusBadRequest
  else if sect = "three" then
    let submit := r.FormValue "submit" == "submit"
    let prev := r.FormValue "prev" == "prev"
    if submit then
      if hxRequest && hxBoosted then
        w.SetHeader "Hx-Redirect" "/form/submitted"
      else
        Redirect w r "/form/submitted" StatusSeeOther
    else if prev then
      if hxRequest && hxBoosted then
        app.render w "form-two" none StatusOK
      else
        Redirect w r "/form/two" StatusSeeOther
    else
      Error w (StatusText StatusBadRequest) StatusBadRequest
  else
    w

def Application.formSubmitted (app : Application) (w : ResponseWriter) (_r : Request) :
    ResponseWriter :=
  app.render w "form-submitted" none StatusOK

/-! ## Routing (`http.ServeMux`) and `main` -/

/-- One segment of a route pattern. -/
inductive Segment where
  /-- A literal segment. -/
  | lit (s : String)
  /-- A wildcard for one non-empty path segment. -/
  | wild (name : String)
  /-- A wildcard for the remainder of the path; a pattern ending in a slash
  ends in a nameless one. -/
  | multi (name : String)
deriving DecidableEq, Repr

/-- A route pattern without host part: method (or `""`) and path segments. -/
structure Pattern where
  method : String
  segments : List Segment
deriving DecidableEq, Repr

/-- Splits at every slash. -/
def splitSlash : List Char → List (List Char)
  | [] => [[]]
  | c :: cs =>
    if c = '/' then [] :: splitSlash cs
    else
      match splitSlash cs with
      | [] => [[c]]
      | s :: ss => (c :: s) :: ss

/-- The segments of a path that begins with a slash: `/form/one` has the
segments `form` and `one`, `/` has one empty segment. -/
def pathSegments (path : String) : List String :=
  ((splitSlash path.toList).drop 1).map String.mk

/-- Cuts at the first blank (Go: `strings.Cut(s, " ")`). -/
def cutBlank : List Char → Option (List Char × List Char)
  | [] => none
  | c :: cs =>
    if c = ' ' then some ([], cs)
    else (cutBlank cs).map (fun p => (c :: p.1, p.2))

/-- One pattern segment: `{name}` is a wildcard, `{name...}` and the empty
segment after a trailing slash take the remainder, anything else is literal
(the end anchor, which `main` does not use, is not treated). -/
def parseSegment (seg : List Char) : Segment :=
  match seg with
  | [] => Segment.multi ""
  | c :: cs =>
    if c = Char.ofNat 123 ∧ cs.getLast? = some (Char.ofNat 125) then
      let name := cs.dropLast
      if name.drop (name.length - 3) = ['.', '.', '.'] then
        Segment.multi (String.mk (name.take (name.length - 3)))
      else Segment.wild (String.mk name)
    else Segment.lit (String.mk seg)

/-- Parses `[METHOD ]/PATH` (Go: `parsePattern`, for patterns without host). -/
def parsePattern (s : String) : Pattern :=
  let (method, rest) :=
    match cutBlank s.toList with
    | some (m, r) => (m, r.dropWhile (fun c => c = ' ' ∨ c = '\t'))
    | none => ([], s.toList)
  { method := String.mk method, segments := ((splitSlash rest).drop 1).map parseSegment }

/-- Matches pattern segments against path segments and collects the
wildcard bindings; a single wildcard does not match an empty segment. -/
def matchSegments : List Segment → List String → Option (List (String × String))
  | [], [] => some []
  | Segment.multi name :: _, seg :: rest =>
    if name = "" then some [] else some [(name, String.intercalate "/" (seg :: rest))]
  | Segment.lit s :: ps, seg :: rest =>
    if s = seg then matchSegments ps rest else none
  | Segment.wild name :: ps, seg :: rest =>
    if seg = "" then none
    else (matchSegments ps rest).map (fun m => (name, seg) :: m)
  | _, _ => none

/-- Precedence of a segment in the routing tree: the literal child is tried
first, then the single wildcard, then the remainder wildcard. -/
def Segment.rank : Segment → Nat
  | Segment.lit _ => 0
  | Segment.wild _ => 1
  | Segment.multi _ => 2

/-- Whether the first rank list comes strictly first in the tree search. -/
def ranksBefore : List Nat → List Nat → Bool
  | a :: as, b :: bs => a < b || (a == b && ranksBefore as bs)
  | _, _ => false

abbrev HandlerFunc := ResponseWriter → Request → ResponseWriter

/-- The registered routes (Go: `http.DefaultServeMux`). -/
abbrev ServeMux := List (Pattern × HandlerFunc)

/-- `http.HandleFunc`: registers a handler under a pattern. -/
def HandleFunc (mux : ServeMux) (pattern : String) (handler : HandlerFunc) : ServeMux :=
  mux ++ [(parsePattern pattern, handler)]

/-- The route of the given method that the tree search finds for a path. -/
def matchPath (mux : ServeMux) (method : String) (segs : List String) :
    Option (Pattern × HandlerFunc × List (String × String)) :=
  mux.foldl
    (fun best e =>
      if e.1.method = method then
        match matchSegments e.1.segments segs with
        | none => best
        | some m =>
          match best with
          | none => some (e.1, e.2, m)
          | some b =>
            if ranksBefore (e.1.segments.map Segment.rank) (b.1.segments.map Segment.rank)
            then some (e.1, e.2, m) else best
      else best)
    none

/-- Looks the request up: patterns of the request method first, a HEAD
request then falls back to GET patterns, last come patterns without method. -/
def matchMethodAndPath (mux : ServeMux) (method : String) (segs : List String) :
    Option (Pattern × HandlerFunc × List (String × String)) :=
  match matchPath mux method segs with
  | some x => some x
  | none =>
    match (if method = "HEAD" then matchPath mux "GET" segs else none) with
    | some x => some x
    | none => matchPath mux "" segs

/-- Whether the segments after the leading slash are in cleaned form: no
empty segment before the last one, and no `.` or `..` segment. -/
def cleanSegments : List (List Char) → Bool
  | [] => true
  | [s] => s ≠ ['.'] && s ≠ ['.', '.']
  | s :: rest => s ≠ [] && s ≠ ['.'] && s ≠ ['.', '.'] && cleanSegments rest

/-- Whether the path equals its cleaned form (Go: `cleanPath(p) == p`): it
begins with a slash, has no doubled slash and no dot segment; a trailing
slash is kept by the cleaning. -/
def isCleanPath (path : String) : Bool :=
  match splitSlash path.toList with
  | [] :: segs => cleanSegments segs
  | _ => false

/-- Whether the path is free of percent escapes, so that its segments are
their own unescaped form. -/
def noEscapes (path : String) : Bool :=
  path.toList.all (fun c => c != '%')

/-- Whether the match is exact (Go: `exactMatch`): a pattern that ends in a
remainder wildcard matches exactly only a path that ends in a slash and has
as many segments as the pattern. -/
def exactMatch (p : Pattern) (segs : List String) : Bool :=
  match p.segments.getLast? with
  | some (Segment.multi _) => segs.getLast? == some "" && p.segments.length == segs.length
  | _ => true

/-- Whether the mux answers with a redirect to the path with a slash added:
the path has no trailing slash and no exact match, and the path with the
slash added has one. -/
def redirectsToSlash (mux : ServeMux) (method : String) (segs : List String) : Bool :=
  let exact :=
    match matchMethodAndPath mux method segs with
    | some (p, _, _) => exactMatch p segs
    | none => false
  !exact && segs.getLast? != some "" &&
    (match matchMethodAndPath mux method (segs ++ [""]) with
     | some (p, _, _) => exactMatch p (segs ++ [""])
     | none => false)

/-- Whether the mux hands the request to the handler of the matching route
rather than answering with a redirect itself: the path is free of escapes
(paths with escapes are not modelled), and, unless the method is CONNECT,
the path is in cleaned form and no slash is to be added. -/
def dispatches (mux : ServeMux) (r : Request) : Bool :=
  noEscapes r.Path &&
    (r.Method == "CONNECT" ||
      (isCleanPath r.Path && !redirectsToSlash mux r.Method (pathSegments r.Path)))

/-- Serving one request through the mux: the matched handler runs on a fresh
writer with the wildcard bindings stored in the request, and the server
completes the response.  `none` stands for a request that no registered
handler answers here: no route matches it (the mux answers 404 or 405), the
mux redirects it (to the cleaned path, or to the path with a slash added), or
its path carries percent escapes. -/
def ServeHTTP (mux : ServeMux) (r : Request) : Option ResponseWriter :=
  if dispatches mux r then
    match matchMethodAndPath mux r.Method (pathSegments r.Path) with
    | some (_, handler, m) =>
      some (handler ResponseWriter.new { r with pathValues := m }).finish
    | none => none
  else none

/-- The route table `main` builds. -/
def routes (app : Application) : ServeMux :=
  let mux0 : ServeMux := []
  let mux1 := HandleFunc mux0 "GET /" app.home
  let mux2 := HandleFunc mux1 "GET /form/{section}" app.form
  HandleFunc mux2 "POST /form/{section}" app.formSection

/-- The running server: every request is served through the route table of
`main`, with the same application value. -/
def serveAll (app : Application) (requests : List Request) : List (Option ResponseWriter) :=
  requests.map (ServeHTTP (routes app))

/-- What the server sends for a handler run on its own on a fresh writer. -/
def respond (handler : HandlerFunc) (r : Request) : ResponseWriter :=
  (handler ResponseWriter.new r).finish

/-- A request as it comes off the wire, before routing and form parsing. -/
def NewRequest (method path : String) (header : Header) (query body : Values) : Request :=
  { Method := method, Path := path, Query := query, Header := header, PostBody := body,
    Form := none, pathValues := [] }

/-! ## Outcomes of the decision table, as seen in the response -/

/-- The outcome `Redirect(path)`: status 303 with `Location: path`, no
template executed and no `Hx-Redirect` header. -/
def SeeOther (w : ResponseWriter) (path : String) : Prop :=
  w.status = 303 ∧ w.header.lookup "Location" = some [path] ∧ w.views = [] ∧
    w.header.lookup "Hx-Redirect" = none

/-- The outcome `Render(view)`: status 200, exactly the template `view`
executed, with nil data, and neither `Location` nor `Hx-Redirect`. -/
def Rendered (w : ResponseWriter) (view : String) : Prop :=
  w.status = 200 ∧ w.views = [(view, none)] ∧ w.header.lookup "Location" = none ∧
    w.header.lookup "Hx-Redirect" = none

/-- The outcome `InlineRedirect(path)`: status 200 with `Hx-Redirect: path`,
no template executed and no `Location` header. -/
def InlineRedirect (w : ResponseWriter) (path : String) : Prop :=
  w.status = 200 ∧ w.header.lookup "Hx-Redirect" = some [path] ∧ w.views = [] ∧
    w.header.lookup "Location" = none

/-- The outcome `BadRequest`: status 400, the body `http.Error` writes for
the status text of 400 (the text and a newline), no template executed and
neither `Location` nor `Hx-Redirect`. -/
def BadRequest (w : ResponseWriter) : Prop :=
  w.status = 400 ∧ w.body = StatusText 400 ++ "\n" ∧ w.views = [] ∧
    w.header.lookup "Location" = none ∧ w.header.lookup "Hx-Redirect" = none

/-- What a writer holds after the view `view` was rendered on it with nil
data: the status line is written, with 200, the content type is HTML, the one
template executed is `view`, and the body is the text of that template (empty
when the template set has no such template). -/
def RenderedPage (app : Application) (w : ResponseWriter) (view : String) : Prop :=
  w.wroteHeader = true ∧ w.status = 200 ∧
    w.header = [("Content-Type", ["text/html; charset=utf-8"])] ∧
    w.views = [(view, none)] ∧
    (∀ t, app.tpl view = some t → w.body = t none) ∧
    (app.tpl view = none → w.body = "")

/-! ## Requests used below -/

/-- A POST request for `/form/{sect}` as `formSection` receives it from the
mux, with the given headers and form-encoded body. -/
def postForm (sect : String) (header : Header) (body : Values) : Request :=
  { NewRequest "POST" ("/form/" ++ sect) header [] body with pathValues := [("section", sect)] }

/-- A template set with no template at all. -/
def noTemplates : Application := { tpl := fun _ => none }

/-- A template set with the views the handlers name, each producing its own
name between angle brackets. -/
def sampleTemplates : Application :=
  { tpl := fun name =>
      if name ∈ ["home", "page-form-one", "page-form-two", "page-form-three", "form-one",
          "form-two", "form-three", "form-submitted"] then
        some (fun _ => "<" ++ name ++ ">")
      else none }

/-- The two headers that switch boosted fragment mode on. -/
def boostedHeaders : Header := [("Hx-Request", ["true"]), ("Hx-Boosted", ["true"])]

/-- The same request with other headers. -/
def Request.withHeader (r : Request) (h : MultiStep.Header) : Request := { r with Header := h }

/-- The same request with a form that carries the single field `key=key`. -/
def Request.withOnlyField (r : Request) (key : String) : Request :=
  { r with PostBody := [(key, key)], Query := [], Form := none }

/-- The response to the request when it is sent in boosted fragment mode. -/
def boostedResponse (app : Application) (r : Request) : ResponseWriter :=
  respond app.formSection (r.withHeader boostedHeaders)

/-- The response to the request when it is sent without the two headers. -/
def conventionalResponse (app : Application) (r : Request) : ResponseWriter :=
  respond app.formSection (r.withHeader [])

/-- Removes a leading run of characters, when the text begins with it. -/
def dropLeading : List Char → List Char → Option (List Char)
  | [], s => some s
  | _ :: _, [] => none
  | c :: p, d :: s => if c = d then dropLeading p s else none

/-- The step a response sends the client to: the `X` of the one view
`form-X` it rendered, or else the `X` of its `Location: /form/X`. -/
def sentTo (w : ResponseWriter) : Option String :=
  match w.views with
  | [(view, _)] => (dropLeading "form-".toList view.toList).map String.mk
  | _ =>
    match w.header.lookup "Location" with
    | some [loc] => (dropLeading "/form/".toList loc.toList).map String.mk
    | _ => none

/-- The step the dispatcher sends the client to from `step` on `action`, for
a POST to `/form/{step}` with the field `action=action` and the headers `mode`. -/
def dest (app : Application) (mode : Header) (step action : String) : Option String :=
  sentTo (respond app.formSection (postForm step mode [(action, action)]))

/-! ## Basic facts -/

theorem ParseForm_Header (r : Request) : (r.ParseForm).Header = r.Header := by
  unfold Request.ParseForm
  cases r.Form <;> rfl

theorem ParseForm_Method (r : Request) : (r.ParseForm).Method = r.Method := by
  unfold Request.ParseForm
  cases r.Form <;> rfl

theorem ParseForm_idem (r : Request) : (r.ParseForm).ParseForm = r.ParseForm := by
  unfold Request.ParseForm
  cases h : r.Form <;> simp [h]

theorem ParseForm_FormValue (r : Request) (key : String) :
    (r.ParseForm).FormValue key = r.FormValue key := by
  unfold Request.FormValue
  rw [ParseForm_idem]

/-- What `render` leaves on a fresh writer. -/
theorem render_new (app : Application) (name : String) (code : Nat) :
    ∃ out, app.render ResponseWriter.new name none code =
      { header := [("Content-Type", ["text/html; charset=utf-8"])], wroteHeader := true,
        status := code, body := out, views := [(name, none)] } := by
  unfold Application.render ExecuteTemplate
  cases app.tpl name with
  | none =>
    refine ⟨"", ?_⟩
    simp [ResponseWriter.new, ResponseWriter.SetHeader, ResponseWriter.WriteHeader,
      Header.Set, Header.Del]
  | some t =>
    refine ⟨"" ++ t none, ?_⟩
    simp [ResponseWriter.new, ResponseWriter.SetHeader, ResponseWriter.WriteHeader,
      ResponseWriter.Write, Header.Set, Header.Del]

/-- What `render` leaves on a fresh writer, with the body it writes. -/
theorem render_new_eq (app : Application) (name : String) (code : Nat) :
    app.render ResponseWriter.new name none code =
      { header := [("Content-Type", ["text/html; charset=utf-8"])], wroteHeader := true,
        status := code,
        body := (match app.tpl name with
          | some t => t none
          | none => ""),
        views := [(name, none)] } := by
  unfold Application.render ExecuteTemplate
  cases app.tpl name with
  | none =>
    simp [ResponseWriter.new, ResponseWriter.SetHeader, ResponseWriter.WriteHeader,
      Header.Set, Header.Del]
  | some t =>
    simp [ResponseWriter.new, ResponseWriter.SetHeader, ResponseWriter.WriteHeader,
      ResponseWriter.Write, Header.Set, Header.Del]

/-- Rendering a view with status 200 on a fresh writer leaves a rendered page. -/
theorem render_new_page (app : Application) (name : String) :
    RenderedPage app (app.render ResponseWriter.new name none 200) name := by
  rw [render_new_eq]
  refine ⟨rfl, rfl, rfl, rfl, ?_, ?_⟩
  · intro t ht
    simp [ht]
  · intro ht
    simp [ht]

/-- The server adds nothing to a response that `render` wrote. -/
theorem render_new_finish (app : Application) (name : String) (code : Nat) :
    (app.render ResponseWriter.new name none code).finish =
      app.render ResponseWriter.new name none code := by
  rw [render_new_eq]
  rfl

/-- What `http.Redirect` leaves on a fresh writer for a POST request. -/
theorem Redirect_new_post (r : Request) (url : String) (code : Nat) (hm : r.Method = "POST") :
    Redirect ResponseWriter.new r url code =
      { header := [("Location", [url])], wroteHeader := true, status := code, body := "",
        views := [] } := by
  simp [Redirect, hm, ResponseWriter.new, ResponseWriter.SetHeader, ResponseWriter.WriteHeader,
    Header.Set, Header.Del]

/-- What `http.Error` leaves on a fresh writer. -/
theorem Error_new (msg : String) (code : Nat) :
    Error ResponseWriter.new msg code =
      { header := [("Content-Type", ["text/plain; charset=utf-8"]),
          ("X-Content-Type-Options", ["nosniff"])],
        wroteHeader := true, status := code, body := "" ++ (msg ++ "\n"), views := [] } := by
  simp [Error, ResponseWriter.new, ResponseWriter.SetHeader, ResponseWriter.WriteHeader,
    ResponseWriter.DelHeader, ResponseWriter.Write, Header.Set, Header.Del]

/-! ## The decision table -/

/-- C1: in conventional mode (not both `Hx-Request` and `Hx-Boosted` equal to
`"true"`) every POST that dispatches to a row of the table is answered with
status 303 and the `Location` of that row, `/form/two` for (one, next), `/`
for (one, cancel), `/form/three` for (two, next), `/form/one` for (two,
prev), `/form/submitted` for (three, submit), `/form/two` for (three, prev),
with no view rendered and no `Hx-Redirect` header. -/
theorem formSection_conventional (app : Application) (r : Request)
    (hm : r.Method = "POST")
    (hc : ¬ (r.Header.Get "Hx-Request" = "true" ∧ r.Header.Get "Hx-Boosted" = "true")) :
    (r.PathValue "section" = "one" → r.FormValue "next" = "next" →
        SeeOther (respond app.formSection r) "/form/two") ∧
    (r.PathValue "section" = "one" → r.FormValue "next" ≠ "next" →
        r.FormValue "cancel" = "cancel" → SeeOther (respond app.formSection r) "/") ∧
    (r.PathValue "section" = "two" → r.FormValue "next" = "next" →
        SeeOther (respond app.formSection r) "/form/three") ∧
    (r.PathValue "section" = "two" → r.FormValue "next" ≠ "next" →
        r.FormValue "prev" = "prev" → SeeOther (respond app.formSection r) "/form/one") ∧
    (r.PathValue "section" = "three" → r.FormValue "submit" = "submit" →
        SeeOther (respond app.formSection r) "/form/submitted") ∧
    (r.PathValue "section" = "three" → r.FormValue "submit" ≠ "submit" →
        r.FormValue "prev" = "prev" → SeeOther (respond app.formSection r) "/form/two") := by
  have hm2 : (r.ParseForm).Method = "POST" := by rw [ParseForm_Method, hm]
  refine ⟨?_, ?_, ?_, ?_, ?_, ?_⟩
  · intro hs hn
    simp [respond, Application.formSection, hs, hn, hc, ParseForm_Header, ParseForm_FormValue,
      Redirect_new_post _ _ _ hm2, SeeOther, ResponseWriter.finish, StatusSeeOther]
  · intro hs hn ha
    simp [respond, Application.formSection, hs, hn, ha, hc, ParseForm_Header,
      ParseForm_FormValue, Redirect_new_post _ _ _ hm2, SeeOther, ResponseWriter.finish,
      StatusSeeOther]
  · intro hs hn
    simp [respond, Application.formSection, hs, hn, hc, ParseForm_Header, ParseForm_FormValue,
      Redirect_new_post _ _ _ hm2, SeeOther, ResponseWriter.finish, StatusSeeOther]
  · intro hs hn ha
    simp [respond, Application.formSection, hs, hn, ha, hc, ParseForm_Header,
      ParseForm_FormValue, Redirect_new_post _ _ _ hm2, SeeOther, ResponseWriter.finish,
      StatusSeeOther]
  · intro hs hn
    simp [respond, Application.formSection, hs, hn, hc, ParseForm_Header, ParseForm_FormValue,
      Redirect_new_post _ _ _ hm2, SeeOther, ResponseWriter.finish, StatusSeeOther]
  · intro hs hn ha
    simp [respond, Application.formSection, hs, hn, ha, hc, ParseForm_Header,
      ParseForm_FormValue, Redirect_new_post _ _ _ hm2, SeeOther, ResponseWriter.finish,
      StatusSeeOther]

/-- Witness for C1: `POST /form/one` with `cancel=cancel` and no boosted
headers is answered with 303 and `Location: /`. -/
theorem formSection_conventional_witness :
    (postForm "one" [] [("cancel", "cancel")]).Method = "POST" ∧
    SeeOther (respond noTemplates.formSection (postForm "one" [] [("cancel", "cancel")])) "/" :=
  ⟨rfl, (formSection_conventional noTemplates (postForm "one" [] [("cancel", "cancel")]) rfl
    (by decide)).2.1 (by decide) (by decide) (by decide)⟩

/-- C2: in boosted fragment mode (both `Hx-Request` and `Hx-Boosted` equal to
`"true"`) a POST renders inline, with status 200 and nil data, `form-two` for
(one, next), `form-three` for (two, next), `form-one` for (two, prev) and
`form-two` for (three, prev), and sets neither `Location` nor `Hx-Redirect`:
the handler itself writes the status line with 200, the HTML content type and
the text of that template as body, and the server adds nothing to it. -/
theorem formSection_boosted_render (app : Application) (r : Request)
    (hq : r.Header.Get "Hx-Request" = "true") (hb : r.Header.Get "Hx-Boosted" = "true") :
    (r.PathValue "section" = "one" → r.FormValue "next" = "next" →
        Rendered (respond app.formSection r) "form-two" ∧
        RenderedPage app (app.formSection ResponseWriter.new r) "form-two" ∧
        respond app.formSection r = app.formSection ResponseWriter.new r) ∧
    (r.PathValue "section" = "two" → r.FormValue "next" = "next" →
        Rendered (respond app.formSection r) "form-three" ∧
        RenderedPage app (app.formSection ResponseWriter.new r) "form-three" ∧
        respond app.formSection r = app.formSection ResponseWriter.new r) ∧
    (r.PathValue "section" = "two" → r.FormValue "next" ≠ "next" →
        r.FormValue "prev" = "prev" →
        Rendered (respond app.formSection r) "form-one" ∧
        RenderedPage app (app.formSection ResponseWriter.new r) "form-one" ∧
        respond app.formSection r = app.formSection ResponseWriter.new r) ∧
    (r.PathValue "section" = "three" → r.FormValue "submit" ≠ "submit" →
        r.FormValue "prev" = "prev" →
        Rendered (respond app.formSection r) "form-two" ∧
        RenderedPage app (app.formSection ResponseWriter.new r) "form-two" ∧
        respond app.formSection r = app.formSection ResponseWriter.new r) := by
  have key : ∀ view, app.formSection ResponseWriter.new r =
      app.render ResponseWriter.new view none 200 →
      Rendered (respond app.formSection r) view ∧
      RenderedPage app (app.formSection ResponseWriter.new r) view ∧
      respond app.formSection r = app.formSection ResponseWriter.new r := by
    intro view hf
    have hp := render_new_page app view
    have he : respond app.formSection r = app.formSection ResponseWriter.new r := by
      unfold respond
      rw [hf, render_new_finish]
    refine ⟨?_, by rw [hf]; exact hp, he⟩
    rw [he, hf]
    obtain ⟨_, h2, h3, h4, _, _⟩ := hp
    refine ⟨h2, h4, ?_, ?_⟩
    · rw [h3]; decide
    · rw [h3]; decide
  refine ⟨?_, ?_, ?_, ?_⟩
  · intro hs hn
    apply key
    simp [Application.formSection, hs, hn, hq, hb, ParseForm_Header, ParseForm_FormValue,
      StatusOK]
  · intro hs hn
    apply key
    simp [Application.formSection, hs, hn, hq, hb, ParseForm_Header, ParseForm_FormValue,
      StatusOK]
  · intro hs hn ha
    apply key
    simp [Application.formSection, hs, hn, ha, hq, hb, ParseForm_Header, ParseForm_FormValue,
      StatusOK]
  · intro hs hn ha
    apply key
    simp [Application.formSection, hs, hn, ha, hq, hb, ParseForm_Header, ParseForm_FormValue,
      StatusOK]

/-- Witness for C2: with templates present, a boosted `POST /form/two` with
`prev=prev` renders `form-one`, and the body sent is the text of that
template. -/
theorem formSection_boosted_render_witness :
    (postForm "two" boostedHeaders [("prev", "prev")]).Header.Get "Hx-Request" = "true" ∧
    (postForm "two" boostedHeaders [("prev", "prev")]).Header.Get "Hx-Boosted" = "true" ∧
    Rendered
      (respond sampleTemplates.formSection (postForm "two" boostedHeaders [("prev", "prev")]))
      "form-one" ∧
    RenderedPage sampleTemplates
      (sampleTemplates.formSection ResponseWriter.new
        (postForm "two" boostedHeaders [("prev", "prev")])) "form-one" ∧
    (respond sampleTemplates.formSection
      (postForm "two" boostedHeaders [("prev", "prev")])).body = "<form-one>" := by
  have h := (formSection_boosted_render sampleTemplates
    (postForm "two" boostedHeaders [("prev", "prev")])
    (by decide) (by decide)).2.2.1 (by decide) (by decide) (by decide)
  refine ⟨by decide, by decide, h.1, h.2.1, ?_⟩
  rw [h.2.2]
  exact h.2.1.2.2.2.2.1 (fun _ => "<form-one>") rfl

/-- C3: in boosted fragment mode step one with action cancel yields status
200 with `Hx-Redirect: /`, and step three with action submit yields status 200
with `Hx-Redirect: /form/submitted`; no view is rendered, no `Location` header
is set, and the handler writes no status line itself (the 200 is the one the
server sends for a handler that wrote none). -/
theorem formSection_inline_redirect (app : Application) (r : Request)
    (hq : r.Header.Get "Hx-Request" = "true") (hb : r.Header.Get "Hx-Boosted" = "true") :
    (r.PathValue "section" = "one" → r.FormValue "next" ≠ "next" →
        r.FormValue "cancel" = "cancel" →
        InlineRedirect (respond app.formSection r) "/" ∧
          (app.formSection ResponseWriter.new r).wroteHeader = false) ∧
    (r.PathValue "section" = "three" → r.FormValue "submit" = "submit" →
        InlineRedirect (respond app.formSection r) "/form/submitted" ∧
          (app.formSection ResponseWriter.new r).wroteHeader = false) := by
  refine ⟨?_, ?_⟩
  · intro hs hn ha
    simp [respond, Application.formSection, hs, hn, ha, hq, hb, ParseForm_Header,
      ParseForm_FormValue, InlineRedirect, ResponseWriter.finish, ResponseWriter.new,
      ResponseWriter.SetHeader, ResponseWriter.WriteHeader, Header.Set, Header.Del]
  · intro hs hn
    simp [respond, Application.formSection, hs, hn, hq, hb, ParseForm_Header,
      ParseForm_FormValue, InlineRedirect, ResponseWriter.finish, ResponseWriter.new,
      ResponseWriter.SetHeader, ResponseWriter.WriteHeader, Header.Set, Header.Del]

/-- Witness for C3: a boosted `POST /form/three` with `submit=submit`. -/
theorem formSection_inline_redirect_witness :
    (postForm "three" boostedHeaders [("submit", "submit")]).Header.Get "Hx-Request" = "true" ∧
    (postForm "three" boostedHeaders [("submit", "submit")]).Header.Get "Hx-Boosted" = "true" ∧
    InlineRedirect
      (respond noTemplates.formSection (postForm "three" boostedHeaders [("submit", "submit")]))
      "/form/submitted" :=
  ⟨by decide, by decide,
    ((formSection_inline_redirect noTemplates
      (postForm "three" boostedHeaders [("submit", "submit")]) (by decide) (by decide)).2
      (by decide) (by decide)).1⟩

/-- C4: on each of the steps one, two and three, in every request mode, a form
in which neither of the step's two action fields carries its own name as
value is answered with status 400 and the status text of 400 as body (as
`http.Error` writes it, ended by a newline), with no view rendered and neither
`Location` nor `Hx-Redirect` set. -/
theorem formSection_bad_request (app : Application) (r : Request) :
    (r.PathValue "section" = "one" → r.FormValue "next" ≠ "next" →
        r.FormValue "cancel" ≠ "cancel" → BadRequest (respond app.formSection r)) ∧
    (r.PathValue "section" = "two" → r.FormValue "next" ≠ "next" →
        r.FormValue "prev" ≠ "prev" → BadRequest (respond app.formSection r)) ∧
    (r.PathValue "section" = "three" → r.FormValue "submit" ≠ "submit" →
        r.FormValue "prev" ≠ "prev" → BadRequest (respond app.formSection r)) := by
  refine ⟨?_, ?_, ?_⟩ <;>
  · intro hs hn ha
    simp [respond, Application.formSection, hs, hn, ha, ParseForm_Header,
      ParseForm_FormValue, BadRequest, ResponseWriter.finish, Error_new, StatusBadRequest]

/-- Witness for C4: `submit=submit` posted to step one, in boosted mode, is a
bad request. -/
theorem formSection_bad_request_witness :
    (postForm "one" boostedHeaders [("submit", "submit")]).FormValue "next" ≠ "next" ∧
    (postForm "one" boostedHeaders [("submit", "submit")]).FormValue "cancel" ≠ "cancel" ∧
    BadRequest (respond noTemplates.formSection (postForm "one" boostedHeaders [("submit", "submit")])) :=
  ⟨by decide, by decide,
    (formSection_bad_request noTemplates (postForm "one" boostedHeaders [("submit", "submit")])).1
      (by decide) (by decide) (by decide)⟩

/-! ## The route table -/

theorem parsePattern_home : parsePattern "GET /" = ⟨"GET", [Segment.multi ""]⟩ := by decide

theorem parsePattern_get_form :
    parsePattern "GET /form/{section}" = ⟨"GET", [Segment.lit "form", Segment.wild "section"]⟩ := by
  decide

theorem parsePattern_post_form :
    parsePattern "POST /form/{section}" =
      ⟨"POST", [Segment.lit "form", Segment.wild "section"]⟩ := by
  decide

/-- A GET request for `/form/{s}` with a non-empty segment `s`, on a clean
path without escapes, is routed to `form`, with `section` bound to `s`. -/
theorem ServeHTTP_get_form (app : Application) (r : Request) (s : String)
    (hm : r.Method = "GET") (hp : pathSegments r.Path = ["form", s]) (hs : s ≠ "")
    (he : noEscapes r.Path = true) (hc : isCleanPath r.Path = true) :
    ServeHTTP (routes app) r =
      some (respond app.form { r with pathValues := [("section", s)] }) := by
  simp [ServeHTTP, dispatches, redirectsToSlash, exactMatch, routes, HandleFunc,
    parsePattern_home, parsePattern_get_form, parsePattern_post_form, matchMethodAndPath,
    matchPath, hm, hp, hs, he, hc, matchSegments, Segment.rank, ranksBefore, respond]

/-- A POST request for `/form/{s}` with a non-empty segment `s`, on a clean
path without escapes, is routed to `formSection`, with `section` bound to
`s`. -/
theorem ServeHTTP_post_form (app : Application) (r : Request) (s : String)
    (hm : r.Method = "POST") (hp : pathSegments r.Path = ["form", s]) (hs : s ≠ "")
    (he : noEscapes r.Path = true) (hc : isCleanPath r.Path = true) :
    ServeHTTP (routes app) r =
      some (respond app.formSection { r with pathValues := [("section", s)] }) := by
  simp [ServeHTTP, dispatches, redirectsToSlash, exactMatch, routes, HandleFunc,
    parsePattern_home, parsePattern_get_form, parsePattern_post_form, matchMethodAndPath,
    matchPath, hm, hp, hs, he, hc, matchSegments, respond]

/-- What `form` answers, whatever the section is. -/
theorem respond_form (app : Application) (r : Request) :
    (respond app.form r).status = 200 ∧
      (respond app.form r).views = [("page-form-" ++ r.PathValue "section", none)] := by
  obtain ⟨out, ho⟩ := render_new app ("page-form-" ++ r.PathValue "section") 200
  simp [respond, Application.form, StatusOK, ho, ResponseWriter.finish]

/-- The last response of the server is the response to the last request. -/
theorem serveAll_last (app : Application) (hist : List Request) (r : Request) :
    (serveAll app (hist ++ [r])).getLast? = some (ServeHTTP (routes app) r) := by
  simp [serveAll]

/-- The step of the search of `matchPath` never invents a route. -/
theorem matchPath_foldl_mem (method : String) (segs : List String) (S : ServeMux) :
    ∀ (l : ServeMux) (best : Option (Pattern × HandlerFunc × List (String × String))),
      (∀ e ∈ l, e ∈ S) → (∀ x, best = some x → (x.1, x.2.1) ∈ S) →
      ∀ x, l.foldl
        (fun best e =>
          if e.1.method = method then
            match matchSegments e.1.segments segs with
            | none => best
            | some m =>
              match best with
              | none => some (e.1, e.2, m)
              | some b =>
                if ranksBefore (e.1.segments.map Segment.rank) (b.1.segments.map Segment.rank)
                then some (e.1, e.2, m) else best
          else best) best = some x → (x.1, x.2.1) ∈ S := by
  intro l
  induction l with
  | nil => intro best _ hb x hx; exact hb x hx
  | cons e l ih =>
    intro best hl hb x hx
    rw [List.foldl_cons] at hx
    refine ih _ (fun e2 h2 => hl e2 (List.mem_cons_of_mem _ h2)) ?_ x hx
    intro y hy
    have he : e ∈ S := hl e (List.mem_cons_self _ _)
    split at hy
    · split at hy
      · exact hb y hy
      · split at hy
        · cases hy; exact he
        · split at hy
          · cases hy; exact he
          · exact hb y hy
    · exact hb y hy

/-- The handler the mux picks is a registered one. -/
theorem matchMethodAndPath_mem (mux : ServeMux) (method : String) (segs : List String)
    (x : Pattern × HandlerFunc × List (String × String))
    (h : matchMethodAndPath mux method segs = some x) : (x.1, x.2.1) ∈ mux := by
  have key : ∀ m y, matchPath mux m segs = some y → (y.1, y.2.1) ∈ mux := fun m y hy =>
    matchPath_foldl_mem m segs mux mux none (fun _ he => he) (fun _ hx => by cases hx) y hy
  unfold matchMethodAndPath at h
  split at h
  · cases h; exact key _ _ (by assumption)
  · split at h
    · cases h
      rename_i hh
      split at hh
      · exact key _ _ hh
      · cases hh
    · exact key _ _ h

/-- Every request the route table of `main` serves is answered by `home`,
`form` or `formSection`. -/
theorem ServeHTTP_routes (app : Application) (r : Request) (w : ResponseWriter)
    (h : ServeHTTP (routes app) r = some w) :
    ∃ r2, w = respond app.home r2 ∨ w = respond app.form r2 ∨ w = respond app.formSection r2 := by
  unfold ServeHTTP at h
  split at h
  case isFalse => cases h
  split at h
  · rename_i p handler m hmatch
    have hmem := matchMethodAndPath_mem _ _ _ _ hmatch
    cases h
    refine ⟨{ r with pathValues := m }, ?_⟩
    simp only [routes, HandleFunc, List.nil_append, List.cons_append, List.mem_cons,
      List.mem_singleton, Prod.mk.injEq, List.not_mem_nil, or_false] at hmem
    rcases hmem with ⟨_, hh⟩ | ⟨_, hh⟩ | ⟨_, hh⟩ <;> subst hh <;> simp [respond]
  · cases h

theorem Redirect_views (w : ResponseWriter) (r : Request) (url : String) (code : Nat) :
    (Redirect w r url code).views = w.views := by
  unfold Redirect ResponseWriter.Write ResponseWriter.WriteHeader ResponseWriter.SetHeader
  simp only []
  split_ifs <;> rfl

theorem Error_views (w : ResponseWriter) (msg : String) (code : Nat) :
    (Error w msg code).views = w.views := by
  unfold Error ResponseWriter.Write ResponseWriter.WriteHeader ResponseWriter.SetHeader
    ResponseWriter.DelHeader
  simp only []
  split_ifs <;> rfl

theorem render_views (app : Application) (w : ResponseWriter) (name : String) (data : PageData)
    (code : Nat) : (app.render w name data code).views = w.views ++ [(name, data)] := by
  unfold Application.render ExecuteTemplate ResponseWriter.Write ResponseWriter.WriteHeader
    ResponseWriter.SetHeader
  simp only []
  cases app.tpl name <;> simp only [] <;> split_ifs <;> rfl

theorem finish_views (w : ResponseWriter) : w.finish.views = w.views := by
  unfold ResponseWriter.finish ResponseWriter.WriteHeader
  split_ifs <;> rfl

/-- The views `formSection` executes, for any request at all. -/
theorem formSection_views (app : Application) (r : Request) :
    (respond app.formSection r).views = [] ∨
    (respond app.formSection r).views = [("form-one", none)] ∨
    (respond app.formSection r).views = [("form-two", none)] ∨
    (respond app.formSection r).views = [("form-three", none)] := by
  have hnew : ResponseWriter.new.views = [] := rfl
  unfold respond Application.formSection
  rw [finish_views]
  simp only []
  split_ifs <;>
    simp [Redirect_views, Error_views, render_views, hnew, ResponseWriter.SetHeader]

/-- C5, the code at `GET /form/submitted`: the route table of `main` has no
entry for `formSubmitted`; the request matches `GET /form/{section}` and is
answered by `form` with `section = "submitted"`, so the view executed is
`page-form-submitted`, while `form-submitted` is the view of the handler
`formSubmitted`, which no route reaches: no request at all is answered with
the view `form-submitted`. -/
theorem GET_form_submitted_served_by_form (app : Application) (header : Header)
    (query body : Values) :
    (∃ w, ServeHTTP (routes app) (NewRequest "GET" "/form/submitted" header query body) = some w ∧
      w = respond app.form
        { NewRequest "GET" "/form/submitted" header query body with
          pathValues := [("section", "submitted")] } ∧
      w.status = 200 ∧ w.views = [("page-form-submitted", none)] ∧
      w.views ≠ [("form-submitted", none)]) ∧
    (respond app.formSubmitted (NewRequest "GET" "/form/submitted" header query body)).views =
      [("form-submitted", none)] ∧
    (routes app).map Prod.fst =
      [parsePattern "GET /", parsePattern "GET /form/{section}",
        parsePattern "POST /form/{section}"] ∧
    ∀ r : Request,
      (ServeHTTP (routes app) r).map (fun w => w.views) ≠ some [("form-submitted", none)] := by
  have h := ServeHTTP_get_form app (NewRequest "GET" "/form/submitted" header query body)
    "submitted" rfl (by show pathSegments "/form/submitted" = _; decide) (by decide)
    (by show noEscapes "/form/submitted" = _; decide)
    (by show isCleanPath "/form/submitted" = _; decide)
  have hf := respond_form app
    { NewRequest "GET" "/form/submitted" header query body with
      pathValues := [("section", "submitted")] }
  have hv : ("page-form-" ++ "submitted" : String) = "page-form-submitted" := by decide
  obtain ⟨out, ho⟩ := render_new app "form-submitted" 200
  refine ⟨⟨_, h, rfl, hf.1, ?_, ?_⟩, ?_, ?_, ?_⟩
  · rw [hf.2]; simp [Request.PathValue, hv]
  · rw [hf.2]; simp [Request.PathValue, hv]
  · simp [respond, Application.formSubmitted, StatusOK, ho, ResponseWriter.finish]
  · simp [routes, HandleFunc]
  · intro r hr
    cases hs : ServeHTTP (routes app) r with
    | none => rw [hs] at hr; cases hr
    | some w =>
      rw [hs] at hr
      have hw : w.views = [("form-submitted", none)] := by simpa using hr
      obtain ⟨r2, h1 | h1 | h1⟩ := ServeHTTP_routes app r w hs
      · obtain ⟨o, hh⟩ := render_new app "home" 200
        rw [h1] at hw
        simp [respond, Application.home, StatusOK, hh, ResponseWriter.finish] at hw
      · rw [h1, (respond_form app r2).2] at hw
        have h2 : "page-form-" ++ r2.PathValue "section" = "form-submitted" := by simpa using hw
        have h3 := congrArg String.data h2
        simp at h3
      · rw [h1] at hw
        rcases formSection_views app r2 with h4 | h4 | h4 | h4 <;> rw [h4] at hw <;>
          simp at hw

/-- C7: whatever requests the server handled before, a GET request for
`/form/one`, `/form/two` or `/form/three` is answered by `form` with status
200 and the view `page-form-` followed by the section, executed with nil
data: the handler itself writes the status line with 200, the HTML content
type and the text of that template as body, and the server adds nothing. -/
theorem GET_form_section (app : Application) (hist : List Request) (r : Request) (s : String)
    (hs : s = "one" ∨ s = "two" ∨ s = "three") (hm : r.Method = "GET")
    (hp : r.Path = "/form/" ++ s) :
    ∃ w, (serveAll app (hist ++ [r])).getLast? = some (some w) ∧
      w = respond app.form { r with pathValues := [("section", s)] } ∧
      w.status = 200 ∧ w.views = [("page-form-" ++ s, none)] ∧
      w = app.form ResponseWriter.new { r with pathValues := [("section", s)] } ∧
      RenderedPage app w ("page-form-" ++ s) ∧
      w.header.lookup "Location" = none ∧ w.header.lookup "Hx-Redirect" = none := by
  have hseg : pathSegments r.Path = ["form", s] := by
    rw [hp]; rcases hs with h | h | h <;> subst h <;> decide
  have hne : s ≠ "" := by
    rcases hs with h | h | h <;> subst h <;> decide
  have hf := respond_form app { r with pathValues := [("section", s)] }
  have hr : app.form ResponseWriter.new { r with pathValues := [("section", s)] } =
      app.render ResponseWriter.new ("page-form-" ++ s) none 200 := by
    simp [Application.form, Request.PathValue, StatusOK]
  have hw : respond app.form { r with pathValues := [("section", s)] } =
      app.form ResponseWriter.new { r with pathValues := [("section", s)] } := by
    unfold respond
    rw [hr, render_new_finish]
  have hpage := render_new_page app ("page-form-" ++ s)
  refine ⟨_, ?_, rfl, hf.1, ?_, hw, ?_, ?_, ?_⟩
  · have he : noEscapes r.Path = true := by
      rw [hp]; rcases hs with h | h | h <;> subst h <;> decide
    have hc : isCleanPath r.Path = true := by
      rw [hp]; rcases hs with h | h | h <;> subst h <;> decide
    rw [serveAll_last, ServeHTTP_get_form app r s hm hseg hne he hc]
  · rw [hf.2]; simp [Request.PathValue]
  · rw [hw, hr]; exact hpage
  · rw [hw, hr, hpage.2.2.1]; decide
  · rw [hw, hr, hpage.2.2.1]; decide

/-- Witness for C7: with templates present, a first request, for step three,
gets step three's page: the body is the text of `page-form-three`. -/
theorem GET_form_section_witness :
    ∃ w, (serveAll sampleTemplates ([] ++ [NewRequest "GET" "/form/three" [] [] []])).getLast? =
        some (some w) ∧
      w.status = 200 ∧ w.views = [("page-form-three", none)] ∧
      w.header = [("Content-Type", ["text/html; charset=utf-8"])] ∧
      w.body = "<page-form-three>" := by
  obtain ⟨w, h1, _, h3, h4, _, h6, _, _⟩ :=
    GET_form_section sampleTemplates [] (NewRequest "GET" "/form/three" [] [] []) "three"
      (Or.inr (Or.inr rfl)) rfl rfl
  exact ⟨w, h1, h3, h4, h6.2.2.1, h6.2.2.2.2.1 (fun _ => "<page-form-three>") rfl⟩

/-! ## What the response depends on -/

/-- `http.Redirect` reads nothing of the request but its method. -/
theorem Redirect_congr (w : ResponseWriter) (r1 r2 : Request) (url : String) (code : Nat)
    (hm : r1.Method = r2.Method) : Redirect w r1 url code = Redirect w r2 url code := by
  unfold Redirect
  rw [hm]

/-- Two requests that agree on the section, the method, the boosted-mode
test and the two action tests of the section get the same response. -/
theorem formSection_congr (app : Application) (w : ResponseWriter) (r1 r2 : Request)
    (hsec : r1.PathValue "section" = r2.PathValue "section")
    (hmeth : r1.Method = r2.Method)
    (hmode : (r1.Header.Get "Hx-Request" = "true" ∧ r1.Header.Get "Hx-Boosted" = "true") ↔
      (r2.Header.Get "Hx-Request" = "true" ∧ r2.Header.Get "Hx-Boosted" = "true"))
    (hone : r2.PathValue "section" = "one" →
      (r1.FormValue "next" = "next" ↔ r2.FormValue "next" = "next") ∧
      (r1.FormValue "cancel" = "cancel" ↔ r2.FormValue "cancel" = "cancel"))
    (htwo : r2.PathValue "section" = "two" →
      (r1.FormValue "next" = "next" ↔ r2.FormValue "next" = "next") ∧
      (r1.FormValue "prev" = "prev" ↔ r2.FormValue "prev" = "prev"))
    (hthree : r2.PathValue "section" = "three" →
      (r1.FormValue "submit" = "submit" ↔ r2.FormValue "submit" = "submit") ∧
      (r1.FormValue "prev" = "prev" ↔ r2.FormValue "prev" = "prev")) :
    app.formSection w r1 = app.formSection w r2 := by
  have hred : ∀ url code, Redirect w r1.ParseForm url code = Redirect w r2.ParseForm url code :=
    fun url code => Redirect_congr w _ _ url code (by rw [ParseForm_Method, ParseForm_Method, hmeth])
  simp only [Application.formSection, ParseForm_Header, ParseForm_FormValue, hsec, hred,
    Bool.and_eq_true, beq_iff_eq, hmode]
  by_cases h1 : r2.PathValue "section" = "one"
  · obtain ⟨ha, hb⟩ := hone h1
    simp [h1, ha, hb]
  · by_cases h2 : r2.PathValue "section" = "two"
    · obtain ⟨ha, hb⟩ := htwo h2
      simp [h2, ha, hb]
    · by_cases h3 : r2.PathValue "section" = "three"
      · obtain ⟨ha, hb⟩ := hthree h3
        simp [h3, ha, hb]
      · simp [h1, h2, h3]

theorem withHeader_FormValue (r : Request) (h : Header) (key : String) :
    (r.withHeader h).FormValue key = r.FormValue key := by
  unfold Request.FormValue Request.ParseForm Request.withHeader
  cases hf : r.Form <;> simp [hf]

theorem withHeader_PathValue (r : Request) (h : Header) (name : String) :
    (r.withHeader h).PathValue name = r.PathValue name := rfl

/-- The status of the answer to a POST that dispatches to a row of the table:
200 in boosted fragment mode, 303 otherwise. -/
theorem formSection_row_status (app : Application) (r : Request) (hm : r.Method = "POST")
    (hrow : (r.PathValue "section" = "one" ∧
        (r.FormValue "next" = "next" ∨ r.FormValue "cancel" = "cancel")) ∨
      (r.PathValue "section" = "two" ∧
        (r.FormValue "next" = "next" ∨ r.FormValue "prev" = "prev")) ∨
      (r.PathValue "section" = "three" ∧
        (r.FormValue "submit" = "submit" ∨ r.FormValue "prev" = "prev"))) :
    (respond app.formSection r).status =
      if r.Header.Get "Hx-Request" = "true" ∧ r.Header.Get "Hx-Boosted" = "true" then 200
      else 303 := by
  have hm2 : (r.ParseForm).Method = "POST" := by rw [ParseForm_Method, hm]
  obtain ⟨o1, ho1⟩ := render_new app "form-one" 200
  obtain ⟨o2, ho2⟩ := render_new app "form-two" 200
  obtain ⟨o3, ho3⟩ := render_new app "form-three" 200
  by_cases hmode : r.Header.Get "Hx-Request" = "true" ∧ r.Header.Get "Hx-Boosted" = "true"
  · rcases hrow with ⟨hs, h⟩ | ⟨hs, h⟩ | ⟨hs, h⟩
    · by_cases hn : r.FormValue "next" = "next"
      · simp [respond, Application.formSection, hs, hn, hmode, ParseForm_Header,
          ParseForm_FormValue, ResponseWriter.finish, StatusOK, ho2]
      · have hc : r.FormValue "cancel" = "cancel" := h.resolve_left hn
        simp [respond, Application.formSection, hs, hn, hc, hmode, ParseForm_Header,
          ParseForm_FormValue, ResponseWriter.finish, ResponseWriter.new,
          ResponseWriter.SetHeader, ResponseWriter.WriteHeader]
    · by_cases hn : r.FormValue "next" = "next"
      · simp [respond, Application.formSection, hs, hn, hmode, ParseForm_Header,
          ParseForm_FormValue, ResponseWriter.finish, StatusOK, ho3]
      · have hc : r.FormValue "prev" = "prev" := h.resolve_left hn
        simp [respond, Application.formSection, hs, hn, hc, hmode, ParseForm_Header,
          ParseForm_FormValue, ResponseWriter.finish, StatusOK, ho1]
    · by_cases hn : r.FormValue "submit" = "submit"
      · simp [respond, Application.formSection, hs, hn, hmode, ParseForm_Header,
          ParseForm_FormValue, ResponseWriter.finish, ResponseWriter.new,
          ResponseWriter.SetHeader, ResponseWriter.WriteHeader]
      · have hc : r.FormValue "prev" = "prev" := h.resolve_left hn
        simp [respond, Application.formSection, hs, hn, hc, hmode, ParseForm_Header,
          ParseForm_FormValue, ResponseWriter.finish, StatusOK, ho2]
  · rcases hrow with ⟨hs, h⟩ | ⟨hs, h⟩ | ⟨hs, h⟩
    · by_cases hn : r.FormValue "next" = "next"
      · simp [respond, Application.formSection, hs, hn, hmode, ParseForm_Header,
          ParseForm_FormValue, ResponseWriter.finish, StatusSeeOther,
          Redirect_new_post _ _ _ hm2]
      · have hc : r.FormValue "cancel" = "cancel" := h.resolve_left hn
        simp [respond, Application.formSection, hs, hn, hc, hmode, ParseForm_Header,
          ParseForm_FormValue, ResponseWriter.finish, StatusSeeOther,
          Redirect_new_post _ _ _ hm2]
    · by_cases hn : r.FormValue "next" = "next"
      · simp [respond, Application.formSection, hs, hn, hmode, ParseForm_Header,
          ParseForm_FormValue, ResponseWriter.finish, StatusSeeOther,
          Redirect_new_post _ _ _ hm2]
      · have hc : r.FormValue "prev" = "prev" := h.resolve_left hn
        simp [respond, Application.formSection, hs, hn, hc, hmode, ParseForm_Header,
          ParseForm_FormValue, ResponseWriter.finish, StatusSeeOther,
          Redirect_new_post _ _ _ hm2]
    · by_cases hn : r.FormValue "submit" = "submit"
      · simp [respond, Application.formSection, hs, hn, hmode, ParseForm_Header,
          ParseForm_FormValue, ResponseWriter.finish, StatusSeeOther,
          Redirect_new_post _ _ _ hm2]
      · have hc : r.FormValue "prev" = "prev" := h.resolve_left hn
        simp [respond, Application.formSection, hs, hn, hc, hmode, ParseForm_Header,
          ParseForm_FormValue, ResponseWriter.finish, StatusSeeOther,
          Redirect_new_post _ _ _ hm2]

/-- C6: a POST is handled in boosted fragment mode exactly when `Hx-Request`
is the string `"true"` and `Hx-Boosted` is the string `"true"`: with both, the
response is that of the same request carrying just these two headers; without
both (one of them absent or any other string), it is that of the same request
carrying no header at all; and on every row of the table these two responses
differ. -/
theorem formSection_request_mode (app : Application) (r : Request) (hm : r.Method = "POST") :
    (r.Header.Get "Hx-Request" = "true" ∧ r.Header.Get "Hx-Boosted" = "true" →
      respond app.formSection r = respond app.formSection (r.withHeader boostedHeaders)) ∧
    (¬ (r.Header.Get "Hx-Request" = "true" ∧ r.Header.Get "Hx-Boosted" = "true") →
      respond app.formSection r = respond app.formSection (r.withHeader [])) ∧
    ((r.PathValue "section" = "one" ∧
        (r.FormValue "next" = "next" ∨ r.FormValue "cancel" = "cancel")) ∨
      (r.PathValue "section" = "two" ∧
        (r.FormValue "next" = "next" ∨ r.FormValue "prev" = "prev")) ∨
      (r.PathValue "section" = "three" ∧
        (r.FormValue "submit" = "submit" ∨ r.FormValue "prev" = "prev")) →
      respond app.formSection (r.withHeader boostedHeaders) ≠
        respond app.formSection (r.withHeader [])) := by
  have hb1 : boostedHeaders.Get "Hx-Request" = "true" := by decide
  have hb2 : boostedHeaders.Get "Hx-Boosted" = "true" := by decide
  have he : ¬ (Header.Get [] "Hx-Request" = "true" ∧ Header.Get [] "Hx-Boosted" = "true") := by
    decide
  refine ⟨?_, ?_, ?_⟩
  · intro hboth
    unfold respond
    rw [formSection_congr app ResponseWriter.new r (r.withHeader boostedHeaders) rfl rfl
      (by simp [Request.withHeader, hboth, hb1, hb2])
      (fun _ => by simp [withHeader_FormValue]) (fun _ => by simp [withHeader_FormValue])
      (fun _ => by simp [withHeader_FormValue])]
  · intro hnot
    unfold respond
    rw [formSection_congr app ResponseWriter.new r (r.withHeader []) rfl rfl
      (by simp only [Request.withHeader, hnot, he])
      (fun _ => by simp [withHeader_FormValue]) (fun _ => by simp [withHeader_FormValue])
      (fun _ => by simp [withHeader_FormValue])]
  · intro hrow heq
    have h1 := formSection_row_status app (r.withHeader boostedHeaders) hm
      (by simpa only [withHeader_FormValue, withHeader_PathValue] using hrow)
    have h2 := formSection_row_status app (r.withHeader []) hm
      (by simpa only [withHeader_FormValue, withHeader_PathValue] using hrow)
    rw [heq, h2] at h1
    simp only [Request.withHeader, he, hb1, hb2] at h1
    simp at h1

/-- Witness for C6: `Hx-Request: true` with `Hx-Boosted: TRUE` is answered
like a request without headers. -/
theorem formSection_request_mode_witness :
    (postForm "one" [("Hx-Request", ["true"]), ("Hx-Boosted", ["TRUE"])]
        [("next", "next")]).Method = "POST" ∧
    respond noTemplates.formSection
        (postForm "one" [("Hx-Request", ["true"]), ("Hx-Boosted", ["TRUE"])] [("next", "next")]) =
      respond noTemplates.formSection
        ((postForm "one" [("Hx-Request", ["true"]), ("Hx-Boosted", ["TRUE"])]
          [("next", "next")]).withHeader []) :=
  ⟨rfl, (formSection_request_mode noTemplates
    (postForm "one" [("Hx-Request", ["true"]), ("Hx-Boosted", ["TRUE"])] [("next", "next")])
    rfl).2.1 (by decide)⟩

/-- C8: two POST requests that agree on the path section, on whether each of
the two action fields of that step carries its own name, and on whether
`Hx-Request` and `Hx-Boosted` each equal `"true"`, get the same response from
`formSection`, whatever else they carry and whichever requests the handler
answered before each of them. -/
theorem formSection_request_independent (app : Application) (r1 r2 : Request)
    (hm1 : r1.Method = "POST") (hm2 : r2.Method = "POST")
    (hsec : r1.PathValue "section" = r2.PathValue "section")
    (hq : r1.Header.Get "Hx-Request" = "true" ↔ r2.Header.Get "Hx-Request" = "true")
    (hb : r1.Header.Get "Hx-Boosted" = "true" ↔ r2.Header.Get "Hx-Boosted" = "true")
    (hone : r2.PathValue "section" = "one" →
      (r1.FormValue "next" = "next" ↔ r2.FormValue "next" = "next") ∧
      (r1.FormValue "cancel" = "cancel" ↔ r2.FormValue "cancel" = "cancel"))
    (htwo : r2.PathValue "section" = "two" →
      (r1.FormValue "next" = "next" ↔ r2.FormValue "next" = "next") ∧
      (r1.FormValue "prev" = "prev" ↔ r2.FormValue "prev" = "prev"))
    (hthree : r2.PathValue "section" = "three" →
      (r1.FormValue "submit" = "submit" ↔ r2.FormValue "submit" = "submit") ∧
      (r1.FormValue "prev" = "prev" ↔ r2.FormValue "prev" = "prev")) :
    respond app.formSection r1 = respond app.formSection r2 ∧
    ∀ hist1 hist2 : List Request,
      ((hist1 ++ [r1]).map (respond app.formSection)).getLast? =
        ((hist2 ++ [r2]).map (respond app.formSection)).getLast? := by
  have h : respond app.formSection r1 = respond app.formSection r2 := by
    unfold respond
    rw [formSection_congr app ResponseWriter.new r1 r2 hsec (by rw [hm1, hm2])
      (by rw [hq, hb]) hone htwo hthree]
  refine ⟨h, ?_⟩
  intro hist1 hist2
  simp [h]

/-- Witness for C8: on step one a stray `prev`, `submit` and other fields,
another header and a different path and query change nothing. -/
theorem formSection_request_independent_witness :
    respond noTemplates.formSection
        { Method := "POST", Path := "/form/one", Query := [("prev", "prev")],
          Header := [("Hx-Request", ["1"]), ("Accept", ["text/html"])],
          PostBody := [("submit", "submit"), ("next", "next"), ("name", "x")], Form := none,
          pathValues := [("section", "one")] } =
      respond noTemplates.formSection (postForm "one" [] [("next", "next")]) :=
  (formSection_request_independent noTemplates
    { Method := "POST", Path := "/form/one", Query := [("prev", "prev")],
      Header := [("Hx-Request", ["1"]), ("Accept", ["text/html"])],
      PostBody := [("submit", "submit"), ("next", "next"), ("name", "x")], Form := none,
      pathValues := [("section", "one")] }
    (postForm "one" [] [("next", "next")]) rfl rfl (by decide) (by decide) (by decide)
    (by decide) (by decide) (by decide)).1

/-- Setting one header on a fresh writer. -/
theorem SetHeader_new (key value : String) :
    ResponseWriter.new.SetHeader key value =
      { header := [(key, [value])], wroteHeader := false, status := 0, body := "",
        views := [] } := by
  simp [ResponseWriter.new, ResponseWriter.SetHeader, Header.Set, Header.Del]

/-- A handler that writes nothing leaves the empty response with status 200. -/
theorem finish_new :
    ResponseWriter.new.finish =
      { header := [], wroteHeader := true, status := 200, body := "", views := [] } := by
  decide

/-- C9: the response to a POST carries `Hx-Redirect` exactly when the request
is in boosted fragment mode and dispatches to (one, cancel) or (three,
submit); a response that carries it has status 200 (neither 303 nor 400), no
`Location` header and no rendered view. -/
theorem formSection_HxRedirect_iff (app : Application) (r : Request) (hm : r.Method = "POST") :
    (((respond app.formSection r).header.lookup "Hx-Redirect").isSome = true ↔
      ((r.Header.Get "Hx-Request" = "true" ∧ r.Header.Get "Hx-Boosted" = "true") ∧
        ((r.PathValue "section" = "one" ∧ r.FormValue "next" ≠ "next" ∧
            r.FormValue "cancel" = "cancel") ∨
          (r.PathValue "section" = "three" ∧ r.FormValue "submit" = "submit")))) ∧
    (((respond app.formSection r).header.lookup "Hx-Redirect").isSome = true →
      (respond app.formSection r).status = 200 ∧ (respond app.formSection r).views = [] ∧
        (respond app.formSection r).header.lookup "Location" = none) := by
  have hm2 : (r.ParseForm).Method = "POST" := by rw [ParseForm_Method, hm]
  obtain ⟨o1, ho1⟩ := render_new app "form-one" 200
  obtain ⟨o2, ho2⟩ := render_new app "form-two" 200
  obtain ⟨o3, ho3⟩ := render_new app "form-three" 200
  by_cases h1 : r.PathValue "section" = "one"
  · by_cases hn : r.FormValue "next" = "next" <;>
    by_cases hc : r.FormValue "cancel" = "cancel" <;>
    by_cases hq : r.Header.Get "Hx-Request" = "true" <;>
    by_cases hb : r.Header.Get "Hx-Boosted" = "true" <;>
    simp [respond, Application.formSection, h1, hn, hc, hq, hb, ParseForm_Header,
      ParseForm_FormValue, ResponseWriter.finish, StatusOK, StatusSeeOther, StatusBadRequest,
      Redirect_new_post _ _ _ hm2, Error_new, ho1, ho2, ho3, SetHeader_new,
      ResponseWriter.WriteHeader]
  · by_cases h2 : r.PathValue "section" = "two"
    · by_cases hn : r.FormValue "next" = "next" <;>
      by_cases hc : r.FormValue "prev" = "prev" <;>
      by_cases hq : r.Header.Get "Hx-Request" = "true" <;>
      by_cases hb : r.Header.Get "Hx-Boosted" = "true" <;>
      simp [respond, Application.formSection, h2, hn, hc, hq, hb, ParseForm_Header,
        ParseForm_FormValue, ResponseWriter.finish, StatusOK, StatusSeeOther, StatusBadRequest,
        Redirect_new_post _ _ _ hm2, Error_new, ho1, ho2, ho3, SetHeader_new,
        ResponseWriter.WriteHeader]
    · by_cases h3 : r.PathValue "section" = "three"
      · by_cases hn : r.FormValue "submit" = "submit" <;>
        by_cases hc : r.FormValue "prev" = "prev" <;>
        by_cases hq : r.Header.Get "Hx-Request" = "true" <;>
        by_cases hb : r.Header.Get "Hx-Boosted" = "true" <;>
        simp [respond, Application.formSection, h3, hn, hc, hq, hb, ParseForm_Header,
          ParseForm_FormValue, ResponseWriter.finish, StatusOK, StatusSeeOther,
          StatusBadRequest, Redirect_new_post _ _ _ hm2, Error_new, ho1, ho2, ho3,
          SetHeader_new, ResponseWriter.WriteHeader]
      · simp [respond, Application.formSection, h1, h2, h3, finish_new]

/-- Witness for C9: a boosted cancel on step one carries `Hx-Redirect`. -/
theorem formSection_HxRedirect_iff_witness :
    (postForm "one" boostedHeaders [("cancel", "cancel")]).Method = "POST" ∧
    ((respond noTemplates.formSection
      (postForm "one" boostedHeaders [("cancel", "cancel")])).header.lookup
        "Hx-Redirect").isSome = true :=
  ⟨rfl, (formSection_HxRedirect_iff noTemplates
    (postForm "one" boostedHeaders [("cancel", "cancel")]) rfl).1.2
    ⟨⟨by decide, by decide⟩, Or.inl ⟨by decide, by decide, by decide⟩⟩⟩

/-! ## Precedence of the two actions of a step -/

theorem withOnlyField_FormValue (r : Request) (hm : r.Method = "POST") (key name : String) :
    (r.withOnlyField key).FormValue name = if key = name then key else "" := by
  by_cases h : key = name
  · simp [Request.withOnlyField, Request.FormValue, Request.ParseForm, hm, Values.get, h]
  · simp [Request.withOnlyField, Request.FormValue, Request.ParseForm, hm, Values.get, h]

/-- C10: a form that signals both actions of a step is handled as the action
the handler tests first, next on step one and on step two, submit on step
three: in every request mode the response equals that to the same request
carrying only the winning field, and differs from that to the same request
carrying only the other field. -/
theorem formSection_action_precedence (app : Application) (r : Request)
    (hm : r.Method = "POST") :
    (r.PathValue "section" = "one" → r.FormValue "next" = "next" →
      r.FormValue "cancel" = "cancel" →
      respond app.formSection r = respond app.formSection (r.withOnlyField "next") ∧
      respond app.formSection r ≠ respond app.formSection (r.withOnlyField "cancel")) ∧
    (r.PathValue "section" = "two" → r.FormValue "next" = "next" →
      r.FormValue "prev" = "prev" →
      respond app.formSection r = respond app.formSection (r.withOnlyField "next") ∧
      respond app.formSection r ≠ respond app.formSection (r.withOnlyField "prev")) ∧
    (r.PathValue "section" = "three" → r.FormValue "submit" = "submit" →
      r.FormValue "prev" = "prev" →
      respond app.formSection r = respond app.formSection (r.withOnlyField "submit") ∧
      respond app.formSection r ≠ respond app.formSection (r.withOnlyField "prev")) := by
  have hm2 : (r.ParseForm).Method = "POST" := by rw [ParseForm_Method, hm]
  have hm3 : ∀ key, ((r.withOnlyField key).ParseForm).Method = "POST" := by
    intro key; rw [ParseForm_Method]; exact hm
  have hp : ∀ key, (r.withOnlyField key).PathValue "section" = r.PathValue "section" :=
    fun _ => rfl
  have hh : ∀ key, (r.withOnlyField key).Header = r.Header := fun _ => rfl
  obtain ⟨o1, ho1⟩ := render_new app "form-one" 200
  obtain ⟨o2, ho2⟩ := render_new app "form-two" 200
  obtain ⟨o3, ho3⟩ := render_new app "form-three" 200
  refine ⟨?_, ?_, ?_⟩
  · intro hs hn hc
    by_cases hmode : r.Header.Get "Hx-Request" = "true" ∧ r.Header.Get "Hx-Boosted" = "true"
    · simp [respond, Application.formSection, hs, hn, hc, hmode, hp, hh, ParseForm_Header,
        ParseForm_FormValue, withOnlyField_FormValue r hm, ResponseWriter.finish, StatusOK,
        ho2, SetHeader_new, ResponseWriter.WriteHeader]
    · simp [respond, Application.formSection, hs, hn, hc, hmode, hp, hh, ParseForm_Header,
        ParseForm_FormValue, withOnlyField_FormValue r hm, ResponseWriter.finish,
        StatusSeeOther, Redirect_new_post _ _ _ hm2, Redirect_new_post _ _ _ (hm3 _)]
  · intro hs hn hc
    by_cases hmode : r.Header.Get "Hx-Request" = "true" ∧ r.Header.Get "Hx-Boosted" = "true"
    · simp [respond, Application.formSection, hs, hn, hc, hmode, hp, hh, ParseForm_Header,
        ParseForm_FormValue, withOnlyField_FormValue r hm, ResponseWriter.finish, StatusOK,
        ho1, ho3, SetHeader_new, ResponseWriter.WriteHeader]
    · simp [respond, Application.formSection, hs, hn, hc, hmode, hp, hh, ParseForm_Header,
        ParseForm_FormValue, withOnlyField_FormValue r hm, ResponseWriter.finish,
        StatusSeeOther, Redirect_new_post _ _ _ hm2, Redirect_new_post _ _ _ (hm3 _)]
  · intro hs hn hc
    by_cases hmode : r.Header.Get "Hx-Request" = "true" ∧ r.Header.Get "Hx-Boosted" = "true"
    · simp [respond, Application.formSection, hs, hn, hc, hmode, hp, hh, ParseForm_Header,
        ParseForm_FormValue, withOnlyField_FormValue r hm, ResponseWriter.finish, StatusOK,
        ho2, SetHeader_new, ResponseWriter.WriteHeader]
    · simp [respond, Application.formSection, hs, hn, hc, hmode, hp, hh, ParseForm_Header,
        ParseForm_FormValue, withOnlyField_FormValue r hm, ResponseWriter.finish,
        StatusSeeOther, Redirect_new_post _ _ _ hm2, Redirect_new_post _ _ _ (hm3 _)]

/-- Witness for C10: `next=next` together with `cancel=cancel` on step one is
answered like `next=next` alone. -/
theorem formSection_action_precedence_witness :
    (postForm "one" [] [("cancel", "cancel"), ("next", "next")]).FormValue "next" = "next" ∧
    (postForm "one" [] [("cancel", "cancel"), ("next", "next")]).FormValue "cancel" = "cancel" ∧
    respond noTemplates.formSection (postForm "one" [] [("cancel", "cancel"), ("next", "next")]) =
      respond noTemplates.formSection
        ((postForm "one" [] [("cancel", "cancel"), ("next", "next")]).withOnlyField "next") :=
  ⟨by decide, by decide,
    ((formSection_action_precedence noTemplates
      (postForm "one" [] [("cancel", "cancel"), ("next", "next")]) rfl).1
      (by decide) (by decide) (by decide)).1⟩

/-! ## Unknown sections and the set of targets -/

theorem finish_header (w : ResponseWriter) : w.finish.header = w.header := by
  unfold ResponseWriter.finish ResponseWriter.WriteHeader
  split_ifs <;> rfl

/-- The headers `http.Redirect` leaves on a fresh writer, for any method. -/
theorem Redirect_new_header (r : Request) (url : String) (code : Nat) :
    (Redirect ResponseWriter.new r url code).header.lookup "Location" = some [url] ∧
    (Redirect ResponseWriter.new r url code).header.lookup "Hx-Redirect" = none := by
  unfold Redirect ResponseWriter.Write ResponseWriter.WriteHeader
  simp only [ResponseWriter.new, ResponseWriter.SetHeader, Header.Set, Header.Del]
  split_ifs <;> simp

/-- C12: for a section other than `one`, `two` and `three` the handler leaves
the writer exactly as it got it, whatever the form and the headers are: it
writes no status, no header and no body and executes no template, so the
response sent is the empty response with status 200. -/
theorem formSection_unknown_section (app : Application) (w : ResponseWriter) (r : Request)
    (h1 : r.PathValue "section" ≠ "one") (h2 : r.PathValue "section" ≠ "two")
    (h3 : r.PathValue "section" ≠ "three") :
    app.formSection w r = w ∧
    (app.formSection ResponseWriter.new r).wroteHeader = false ∧
    respond app.formSection r =
      { header := [], wroteHeader := true, status := 200, body := "", views := [] } := by
  have h : ∀ w2, app.formSection w2 r = w2 := by
    intro w2
    simp [Application.formSection, h1, h2, h3]
  refine ⟨h w, ?_, ?_⟩
  · rw [h]; rfl
  · unfold respond
    rw [h, finish_new]

/-- Witness for C12: a boosted `POST /form/submitted` with `submit=submit`
gets the empty response with status 200. -/
theorem formSection_unknown_section_witness :
    (postForm "submitted" boostedHeaders [("submit", "submit")]).PathValue "section" ≠ "one" ∧
    (postForm "submitted" boostedHeaders [("submit", "submit")]).PathValue "section" ≠ "two" ∧
    (postForm "submitted" boostedHeaders [("submit", "submit")]).PathValue "section" ≠ "three" ∧
    respond noTemplates.formSection (postForm "submitted" boostedHeaders [("submit", "submit")]) =
      { header := [], wroteHeader := true, status := 200, body := "", views := [] } :=
  ⟨by decide, by decide, by decide,
    (formSection_unknown_section noTemplates ResponseWriter.new
      (postForm "submitted" boostedHeaders [("submit", "submit")])
      (by decide) (by decide) (by decide)).2.2⟩

/-- The headers `formSection` leaves, for any request at all: `Location` and
`Hx-Redirect` are absent or carry one of the constant targets. -/
theorem formSection_headers (app : Application) (r : Request) :
    (respond app.formSection r).header.lookup "Location" ∈
      [none, some ["/"], some ["/form/one"], some ["/form/two"], some ["/form/three"],
        some ["/form/submitted"]] ∧
    (respond app.formSection r).header.lookup "Hx-Redirect" ∈
      [none, some ["/"], some ["/form/submitted"]] := by
  obtain ⟨o1, ho1⟩ := render_new app "form-one" 200
  obtain ⟨o2, ho2⟩ := render_new app "form-two" 200
  obtain ⟨o3, ho3⟩ := render_new app "form-three" 200
  have hnew : ResponseWriter.new.header = [] := rfl
  unfold respond Application.formSection
  rw [finish_header]
  simp only []
  split_ifs <;>
    simp [Redirect_new_header, Error_new, SetHeader_new, ho1, ho2, ho3, StatusOK, hnew]

/-- C14: whatever the request is (any section string, any form, any headers),
the `Location` header and the `Hx-Redirect` header `formSection` leaves are
absent or carry one of the five constants `/`, `/form/one`, `/form/two`,
`/form/three`, `/form/submitted`, and every view it executes is one of
`form-one`, `form-two`, `form-three`. -/
theorem formSection_closed_targets (app : Application) (r : Request) :
    (respond app.formSection r).header.lookup "Location" ∈
      [none, some ["/"], some ["/form/one"], some ["/form/two"], some ["/form/three"],
        some ["/form/submitted"]] ∧
    (respond app.formSection r).header.lookup "Hx-Redirect" ∈
      [none, some ["/"], some ["/form/one"], some ["/form/two"], some ["/form/three"],
        some ["/form/submitted"]] ∧
    (respond app.formSection r).views ∈
      [[], [("form-one", none)], [("form-two", none)], [("form-three", none)]] := by
  refine ⟨(formSection_headers app r).1, ?_, ?_⟩
  · have h := (formSection_headers app r).2
    simp only [List.mem_cons, List.mem_singleton, List.not_mem_nil, or_false] at h ⊢
    rcases h with h | h | h <;> simp [h]
  · have h := formSection_views app r
    simp only [List.mem_cons, List.mem_singleton, List.not_mem_nil, or_false]
    exact h

/-! ## The two modes side by side -/

/-- C11, as amended: for every POST (any section, any form) the boosted
response renders `form-X` exactly when the conventional response redirects to
`/form/X`, for X among one, two, three; the boosted response is an inline
redirect to `p` exactly when the conventional response is a 303 redirect to
the same `p` and `p` is none of `/form/one`, `/form/two`, `/form/three`; and
the boosted response is a bad request exactly when the conventional one is. -/
theorem formSection_modes_agree (app : Application) (r : Request) (hm : r.Method = "POST") :
    (Rendered (boostedResponse app r) "form-one" ↔
      SeeOther (conventionalResponse app r) "/form/one") ∧
    (Rendered (boostedResponse app r) "form-two" ↔
      SeeOther (conventionalResponse app r) "/form/two") ∧
    (Rendered (boostedResponse app r) "form-three" ↔
      SeeOther (conventionalResponse app r) "/form/three") ∧
    (∀ p, InlineRedirect (boostedResponse app r) p ↔
      (SeeOther (conventionalResponse app r) p ∧
        p ≠ "/form/one" ∧ p ≠ "/form/two" ∧ p ≠ "/form/three")) ∧
    (BadRequest (boostedResponse app r) ↔ BadRequest (conventionalResponse app r)) := by
  have hm2 : ∀ h, ((r.withHeader h).ParseForm).Method = "POST" := by
    intro h; rw [ParseForm_Method]; exact hm
  have hh : ∀ h, (r.withHeader h).Header = h := fun _ => rfl
  have hb1 : boostedHeaders.Get "Hx-Request" = "true" := by decide
  have hb2 : boostedHeaders.Get "Hx-Boosted" = "true" := by decide
  have he1 : Header.Get [] "Hx-Request" ≠ "true" := by decide
  obtain ⟨o1, ho1⟩ := render_new app "form-one" 200
  obtain ⟨o2, ho2⟩ := render_new app "form-two" 200
  obtain ⟨o3, ho3⟩ := render_new app "form-three" 200
  by_cases h1 : r.PathValue "section" = "one"
  · by_cases hn : r.FormValue "next" = "next" <;>
    by_cases hc : r.FormValue "cancel" = "cancel" <;>
    simp [boostedResponse, conventionalResponse, respond, Application.formSection, h1, hn, hc,
      hh, hb1, hb2, he1, withHeader_FormValue, withHeader_PathValue, ParseForm_Header,
      ParseForm_FormValue, ResponseWriter.finish, StatusOK, StatusSeeOther, StatusBadRequest,
      Redirect_new_post _ _ _ (hm2 _), Error_new, ho1, ho2, ho3, SetHeader_new,
      ResponseWriter.WriteHeader, Rendered, SeeOther, InlineRedirect, BadRequest]
  · by_cases h2 : r.PathValue "section" = "two"
    · by_cases hn : r.FormValue "next" = "next" <;>
      by_cases hc : r.FormValue "prev" = "prev" <;>
      simp [boostedResponse, conventionalResponse, respond, Application.formSection, h2, hn, hc,
        hh, hb1, hb2, he1, withHeader_FormValue, withHeader_PathValue, ParseForm_Header,
        ParseForm_FormValue, ResponseWriter.finish, StatusOK, StatusSeeOther, StatusBadRequest,
        Redirect_new_post _ _ _ (hm2 _), Error_new, ho1, ho2, ho3, SetHeader_new,
        ResponseWriter.WriteHeader, Rendered, SeeOther, InlineRedirect, BadRequest]
    · by_cases h3 : r.PathValue "section" = "three"
      · by_cases hn : r.FormValue "submit" = "submit" <;>
        by_cases hc : r.FormValue "prev" = "prev" <;>
        simp [boostedResponse, conventionalResponse, respond, Application.formSection, h3, hn, hc,
          hh, hb1, hb2, he1, withHeader_FormValue, withHeader_PathValue, ParseForm_Header,
          ParseForm_FormValue, ResponseWriter.finish, StatusOK, StatusSeeOther, StatusBadRequest,
          Redirect_new_post _ _ _ (hm2 _), Error_new, ho1, ho2, ho3, SetHeader_new,
          ResponseWriter.WriteHeader, Rendered, SeeOther, InlineRedirect, BadRequest]
      · simp [boostedResponse, conventionalResponse, respond, Application.formSection, h1, h2,
          h3, withHeader_PathValue, finish_new, Rendered, SeeOther, InlineRedirect, BadRequest]

/-- Witness for C11 as amended: a cancel on step one is an inline redirect to
`/` in boosted mode, as it is a 303 redirect to `/` in conventional mode. -/
theorem formSection_modes_agree_witness :
    (postForm "one" [] [("cancel", "cancel")]).Method = "POST" ∧
    InlineRedirect (boostedResponse noTemplates (postForm "one" [] [("cancel", "cancel")])) "/" :=
  ⟨rfl, ((formSection_modes_agree noTemplates (postForm "one" [] [("cancel", "cancel")])
    rfl).2.2.2.1 "/").mpr
    ⟨by unfold SeeOther; decide, by decide, by decide, by decide⟩⟩

/-- C11 as stated fails at `POST /form/one` with `next=next`: the
conventional response is a 303 redirect to `/form/two`, but the boosted
response renders `form-two` and is no inline redirect to `/form/two`. -/
theorem formSection_modes_inline_counterexample :
    SeeOther (conventionalResponse noTemplates (postForm "one" [] [("next", "next")]))
      "/form/two" ∧
    Rendered (boostedResponse noTemplates (postForm "one" [] [("next", "next")])) "form-two" ∧
    ¬ (InlineRedirect (boostedResponse noTemplates (postForm "one" [] [("next", "next")]))
        "/form/two" ↔
      SeeOther (conventionalResponse noTemplates (postForm "one" [] [("next", "next")]))
        "/form/two") := by
  have hc : SeeOther (conventionalResponse noTemplates (postForm "one" [] [("next", "next")]))
      "/form/two" := by
    unfold SeeOther; decide
  refine ⟨hc, by unfold Rendered; decide, ?_⟩
  intro h
  have hb := h.mpr hc
  unfold InlineRedirect at hb
  exact absurd hb.2.1 (by decide)

/-! ## Navigation along the steps -/

theorem postForm_FormValue (sect : String) (h : Header) (action name : String) :
    (postForm sect h [(action, action)]).FormValue name = if action = name then action else "" := by
  by_cases hk : action = name
  · simp [postForm, NewRequest, Request.FormValue, Request.ParseForm, Values.get, hk]
  · simp [postForm, NewRequest, Request.FormValue, Request.ParseForm, Values.get, hk]

theorem postForm_PathValue (sect : String) (h : Header) (body : Values) :
    (postForm sect h body).PathValue "section" = sect := by
  simp [postForm, Request.PathValue, List.lookup]

theorem sentTo_rendered (h : Header) (b : Bool) (st : Nat) (o view : String) (d : PageData) :
    sentTo { header := h, wroteHeader := b, status := st, body := o, views := [(view, d)] } =
      (dropLeading "form-".toList view.toList).map String.mk := rfl

theorem sentTo_location (b : Bool) (st : Nat) (o loc : String) :
    sentTo
        { header := [("Location", [loc])], wroteHeader := b, status := st, body := o, views := [] } =
      (dropLeading "/form/".toList loc.toList).map String.mk := by
  simp [sentTo, List.lookup]

/-- Where each navigation row of the table sends the client, in any mode. -/
theorem dest_rows (app : Application) (mode : Header) :
    dest app mode "one" "next" = some "two" ∧ dest app mode "two" "next" = some "three" ∧
    dest app mode "two" "prev" = some "one" ∧ dest app mode "three" "prev" = some "two" := by
  have hm2 : ∀ s b, ((postForm s mode b).ParseForm).Method = "POST" := by
    intro s b; rw [ParseForm_Method]; rfl
  have hh : ∀ s b, (postForm s mode b).Header = mode := fun _ _ => rfl
  obtain ⟨o1, ho1⟩ := render_new app "form-one" 200
  obtain ⟨o2, ho2⟩ := render_new app "form-two" 200
  obtain ⟨o3, ho3⟩ := render_new app "form-three" 200
  have d1 : (dropLeading "form-".toList "form-one".toList).map String.mk = some "one" := by
    decide
  have d2 : (dropLeading "form-".toList "form-two".toList).map String.mk = some "two" := by
    decide
  have d3 : (dropLeading "form-".toList "form-three".toList).map String.mk = some "three" := by
    decide
  have l1 : (dropLeading "/form/".toList "/form/one".toList).map String.mk = some "one" := by
    decide
  have l2 : (dropLeading "/form/".toList "/form/two".toList).map String.mk = some "two" := by
    decide
  have l3 : (dropLeading "/form/".toList "/form/three".toList).map String.mk = some "three" := by
    decide
  by_cases hmode : mode.Get "Hx-Request" = "true" ∧ mode.Get "Hx-Boosted" = "true"
  · have r1 : respond app.formSection (postForm "one" mode [("next", "next")]) =
        { header := [("Content-Type", ["text/html; charset=utf-8"])], wroteHeader := true,
          status := 200, body := o2, views := [("form-two", none)] } := by
      simp [respond, Application.formSection, postForm_FormValue, postForm_PathValue, hh, hmode,
        ParseForm_Header, ParseForm_FormValue, StatusOK, ho2, ResponseWriter.finish]
    have r2 : respond app.formSection (postForm "two" mode [("next", "next")]) =
        { header := [("Content-Type", ["text/html; charset=utf-8"])], wroteHeader := true,
          status := 200, body := o3, views := [("form-three", none)] } := by
      simp [respond, Application.formSection, postForm_FormValue, postForm_PathValue, hh, hmode,
        ParseForm_Header, ParseForm_FormValue, StatusOK, ho3, ResponseWriter.finish]
    have r3 : respond app.formSection (postForm "two" mode [("prev", "prev")]) =
        { header := [("Content-Type", ["text/html; charset=utf-8"])], wroteHeader := true,
          status := 200, body := o1, views := [("form-one", none)] } := by
      simp [respond, Application.formSection, postForm_FormValue, postForm_PathValue, hh, hmode,
        ParseForm_Header, ParseForm_FormValue, StatusOK, ho1, ResponseWriter.finish]
    have r4 : respond app.formSection (postForm "three" mode [("prev", "prev")]) =
        { header := [("Content-Type", ["text/html; charset=utf-8"])], wroteHeader := true,
          status := 200, body := o2, views := [("form-two", none)] } := by
      simp [respond, Application.formSection, postForm_FormValue, postForm_PathValue, hh, hmode,
        ParseForm_Header, ParseForm_FormValue, StatusOK, ho2, ResponseWriter.finish]
    refine ⟨?_, ?_, ?_, ?_⟩
    · rw [dest, r1, sentTo_rendered]; exact d2
    · rw [dest, r2, sentTo_rendered]; exact d3
    · rw [dest, r3, sentTo_rendered]; exact d1
    · rw [dest, r4, sentTo_rendered]; exact d2
  · have r1 : respond app.formSection (postForm "one" mode [("next", "next")]) =
        { header := [("Location", ["/form/two"])], wroteHeader := true, status := 303,
          body := "", views := [] } := by
      simp [respond, Application.formSection, postForm_FormValue, postForm_PathValue, hh, hmode,
        ParseForm_Header, ParseForm_FormValue, StatusSeeOther, Redirect_new_post _ _ _ (hm2 _ _),
        ResponseWriter.finish]
    have r2 : respond app.formSection (postForm "two" mode [("next", "next")]) =
        { header := [("Location", ["/form/three"])], wroteHeader := true, status := 303,
          body := "", views := [] } := by
      simp [respond, Application.formSection, postForm_FormValue, postForm_PathValue, hh, hmode,
        ParseForm_Header, ParseForm_FormValue, StatusSeeOther, Redirect_new_post _ _ _ (hm2 _ _),
        ResponseWriter.finish]
    have r3 : respond app.formSection (postForm "two" mode [("prev", "prev")]) =
        { header := [("Location", ["/form/one"])], wroteHeader := true, status := 303,
          body := "", views := [] } := by
      simp [respond, Application.formSection, postForm_FormValue, postForm_PathValue, hh, hmode,
        ParseForm_Header, ParseForm_FormValue, StatusSeeOther, Redirect_new_post _ _ _ (hm2 _ _),
        ResponseWriter.finish]
    have r4 : respond app.formSection (postForm "three" mode [("prev", "prev")]) =
        { header := [("Location", ["/form/two"])], wroteHeader := true, status := 303,
          body := "", views := [] } := by
      simp [respond, Application.formSection, postForm_FormValue, postForm_PathValue, hh, hmode,
        ParseForm_Header, ParseForm_FormValue, StatusSeeOther, Redirect_new_post _ _ _ (hm2 _ _),
        ResponseWriter.finish]
    refine ⟨?_, ?_, ?_, ?_⟩
    · rw [dest, r1, sentTo_location]; exact l2
    · rw [dest, r2, sentTo_location]; exact l3
    · rw [dest, r3, sentTo_location]; exact l1
    · rw [dest, r4, sentTo_location]; exact l2

/-- C13: with `dest` the step the dispatcher sends the client to (the `X` of
the rendered `form-X` in boosted mode, of `Location: /form/X` in conventional
mode), in every mode prev undoes next from steps one and two, and next undoes
prev from steps two and three; next leads from one to two and from two to
three, prev from two to one and from three to two. -/
theorem navigation_round_trip (app : Application) (mode : Header) :
    ((dest app mode "one" "next").bind (fun t => dest app mode t "prev") = some "one") ∧
    ((dest app mode "two" "next").bind (fun t => dest app mode t "prev") = some "two") ∧
    ((dest app mode "two" "prev").bind (fun t => dest app mode t "next") = some "two") ∧
    ((dest app mode "three" "prev").bind (fun t => dest app mode t "next") = some "three") ∧
    dest app mode "one" "next" = some "two" ∧ dest app mode "two" "next" = some "three" ∧
    dest app mode "two" "prev" = some "one" ∧ dest app mode "three" "prev" = some "two" := by
  obtain ⟨h1, h2, h3, h4⟩ := dest_rows app mode
  refine ⟨?_, ?_, ?_, ?_, h1, h2, h3, h4⟩
  · rw [h1, Option.some_bind, h3]
  · rw [h2, Option.some_bind, h4]
  · rw [h3, Option.some_bind, h1]
  · rw [h4, Option.some_bind, h2]

end MultiStep
